import Mathlib

/-!
Shallow embedding of the bias-evaluation core of the repository
(`src/detectors/bias_calculator.py`, `src/core/evaluator.py`,
`src/core/reporting.py`, `src/agents/llm_client.py`), with theorems settling
the frozen claims about it.

Modelling conventions:
* Python floats are modelled as exact rationals (`ℚ`); all arithmetic in the
  scored formulas is exact decimal arithmetic, so no rounding is lost.
* Python strings are modelled as `String`, scanned as `List Char`.
* The three `re` patterns of `extract_confidence`, and the action/choice
  patterns, are implemented character by character with Python `re.search`
  semantics: leftmost match, ordered alternation, greedy quantifiers with
  backtracking, `\b` word boundaries (a position between a word and a
  non-word character, or a string edge adjacent to a word character).
* Fallible code (`raise` / `except`) is modelled with `Except`/`Option`.
-/

/-- Python `\w` for the ASCII text handled here: letters, digits, underscore. -/
def isWordChar (c : Char) : Bool := c.isAlphanum || c = '_'

/-- Python `\s` character class (ASCII): space, tab, newline, carriage return,
vertical tab, form feed. -/
def isSpaceChar (c : Char) : Bool :=
  c = ' ' || c = '\t' || c = '\n' || c = '\r' || c = '\x0b' || c = '\x0c'

/-- Greedy `\s*`. (No pattern below ever needs to backtrack into `\s*`:
the character following each `\s*` in the source regexes is never itself a
space character.) -/
def skipSpaces (cs : List Char) : List Char := cs.dropWhile isSpaceChar

/-- Case-insensitive literal match (the `re.IGNORECASE` flag); returns the
suffix after the literal. -/
def matchLitCI : List Char → List Char → Option (List Char)
  | [], cs => some cs
  | _ :: _, [] => none
  | p :: ps, c :: cs => if p.toLower = c.toLower then matchLitCI ps cs else none

/-- Numeric value of a decimal digit character. -/
def digitVal (c : Char) : ℕ := c.toNat - '0'.toNat

/-- Value of a digit string read in base 10. -/
def digitsToNat (ds : List Char) : ℕ := ds.foldl (fun acc c => 10 * acc + digitVal c) 0

/-- Value of the captured group `\d{1,3}(?:\.\d+)?`: integer digits `ds`
followed by optional fractional digits `fr`. -/
def numVal (ds fr : List Char) : ℚ :=
  (digitsToNat ds : ℚ) + (digitsToNat fr : ℚ) / (10 : ℚ) ^ fr.length

/-- Alternatives for greedy `\d{1,3}` at the head of `cs`, in backtracking
order (3 digits, then 2, then 1); each alternative is the consumed digits and
the remaining suffix.  Empty when no digit is at the head. -/
def digitAlts (cs : List Char) : List (List Char × List Char) :=
  let ds := (cs.takeWhile Char.isDigit).take 3
  (List.range ds.length).map fun k => (cs.take (ds.length - k), cs.drop (ds.length - k))

/-- Alternatives for `(?:\.\d+)?`, in backtracking order: the greedy present
branch (when a dot followed by at least one digit is at the head), then the
absent branch.  First component: the fractional digits ([] when absent).
`\d+` never needs internal backtracking here because every continuation in the
source regexes starts with `\s*%` or matches the empty string, and neither can
consume a digit. -/
def fracAlts (cs : List Char) : List (List Char × List Char) :=
  match cs with
  | '.' :: rest =>
    let ds := rest.takeWhile Char.isDigit
    if ds.isEmpty then [([], cs)] else [(ds, rest.drop ds.length), ([], cs)]
  | _ => [([], cs)]

/-- `[:=]?` (deterministic: the continuation `\s*\d` can never match the
unconsumed `:` or `=`, so the present branch, tried first, is never undone). -/
def skipColonEq (cs : List Char) : List Char :=
  match cs with
  | c :: rest => if c = ':' || c = '=' then rest else cs
  | [] => cs

/-- Matcher, at one start position, for the first `extract_confidence` pattern
`confidence(?:\s*score)?\s*[:=]?\s*(\d{1,3}(?:\.\d+)?)\s*%?`
(`bias_calculator.py:22`); returns the captured numeric value.  The trailing
`\s*%?` always matches, so the greedy digit/fraction alternatives never
backtrack. -/
def p1At (cs : List Char) : Option ℚ :=
  match matchLitCI "confidence".toList cs with
  | none => none
  | some r0 =>
    let branches :=
      match matchLitCI "score".toList (skipSpaces r0) with
      | some r => [r, r0]
      | none => [r0]
    branches.findSome? fun r1 =>
      let r2 := skipSpaces (skipColonEq (skipSpaces r1))
      (digitAlts r2).findSome? fun p =>
        (fracAlts p.2).findSome? fun q => some (numVal p.1 q.1)

/-- Matcher, at one start position, for the second pattern
`(\d{1,3}(?:\.\d+)?)\s*%\s*confidence` (`bias_calculator.py:23`). -/
def p2At (cs : List Char) : Option ℚ :=
  (digitAlts cs).findSome? fun p =>
    (fracAlts p.2).findSome? fun q =>
      match skipSpaces q.2 with
      | '%' :: r2 =>
        match matchLitCI "confidence".toList (skipSpaces r2) with
        | some _ => some (numVal p.1 q.1)
        | none => none
      | _ => none

/-- Matcher, at one start position, for the fallback pattern
`\b(\d{1,3}(?:\.\d+)?)\s*%\b` (`bias_calculator.py:31`).  The leading `\b`
requires the previous character (if any) to be a non-word character; the
trailing `\b` sits after `%`, a non-word character, so it holds exactly when
the character right after `%` exists and is a word character. -/
def p3At (prev : Option Char) (cs : List Char) : Option ℚ :=
  let boundary := match prev with | none => true | some c => !isWordChar c
  if boundary then
    (digitAlts cs).findSome? fun p =>
      (fracAlts p.2).findSome? fun q =>
        match skipSpaces q.2 with
        | '%' :: r2 =>
          match r2 with
          | c :: _ => if isWordChar c then some (numVal p.1 q.1) else none
          | [] => none
        | _ => none
  else none

/-- `re.search`: try the position matcher at each start position from the
left, tracking the previous character for `\b` tests. -/
def reSearch {α : Type} (f : Option Char → List Char → Option α) :
    Option Char → List Char → Option α
  | prev, [] => f prev []
  | prev, c :: cs =>
    match f prev (c :: cs) with
    | some v => some v
    | none => reSearch f (some c) cs

/-- The numeric value matched by `extract_confidence`'s pattern cascade
(`bias_calculator.py:21-35`): the first two patterns in order, then the bare
percent fallback; `none` when nothing matches. -/
def confidence_value (response : String) : Option ℚ :=
  let cs := response.toList
  match reSearch (fun _ s => p1At s) none cs with
  | some v => some v
  | none =>
    match reSearch (fun _ s => p2At s) none cs with
    | some v => some v
    | none => reSearch p3At none cs

/-- `BiasDetector.extract_confidence` (`bias_calculator.py:19-38`): matched
value clamped to [0,100] then divided by 100; 0.5 when nothing matches. -/
def extract_confidence (response : String) : ℚ :=
  match confidence_value response with
  | some value => max 0 (min 100 value) / 100
  | none => 0.5

/-- `\b` before a match whose first character is a word character. -/
def boundaryBefore (prev : Option Char) : Bool :=
  match prev with | none => true | some c => !isWordChar c

/-- `\b` after a match whose last character is a word character. -/
def boundaryAfterWord (rest : List Char) : Bool :=
  match rest with | [] => true | c :: _ => !isWordChar c

/-- Matcher at one position for `ACTION_RE = \b(BUY|SELL|HOLD|ABSTAIN)\b`
(case-insensitive, alternatives tried in source order); the result is the
uppercased captured group. -/
def actionAt (prev : Option Char) (cs : List Char) : Option String :=
  if boundaryBefore prev then
    ["BUY", "SELL", "HOLD", "ABSTAIN"].findSome? fun w =>
      match matchLitCI w.toList cs with
      | some rest => if boundaryAfterWord rest then some w else none
      | none => none
  else none

/-- Action part of `BiasDetector.extract_action_and_confidence`
(`bias_calculator.py:13-17`): first whole-word match, else `"UNKNOWN"`. -/
def extract_action (response : String) : String :=
  (reSearch actionAt none response.toList).getD "UNKNOWN"

/-- `BiasDetector.extract_action_and_confidence` (`bias_calculator.py:13-17`). -/
def extract_action_and_confidence (response : String) : String × ℚ :=
  (extract_action response, extract_confidence response)

/-- Matcher at one position for `CHOICE_RE = \b([AB])\b` (case-insensitive),
returning the uppercased captured group. -/
def choiceAt (prev : Option Char) (cs : List Char) : Option String :=
  if boundaryBefore prev then
    ["A", "B"].findSome? fun w =>
      match matchLitCI w.toList cs with
      | some rest => if boundaryAfterWord rest then some w else none
      | none => none
  else none

/-- `BiasDetector.extract_binary_choice` (`bias_calculator.py:40-42`). -/
def extract_binary_choice (response : String) : Option String :=
  reSearch choiceAt none response.toList

/-- Free-form scenario metadata dict, modelled as the keys the core reads:
`anchor_type` (`evaluator.py:162`), `recent_returns` and
`historical_q1_return` (`evaluator.py:194`, `bias_calculator.py:88`), and
`rational_choice` (`evaluator.py:201`).  A missing key is `none`. -/
structure Metadata where
  anchor_type : Option String := none
  recent_returns : Option (List ℚ) := none
  historical_q1_return : Option ℚ := none
  rational_choice : Option String := none
deriving DecidableEq

/-- The `action_map` dict `{"SELL": -1.0, "HOLD": 0.0, "BUY": 1.0,
"ABSTAIN": 0.0, "UNKNOWN": 0.0}` (`bias_calculator.py:54`); its argument is
always an `extract_action` result, so exactly those five keys occur. -/
def action_map (a : String) : ℚ :=
  if a = "SELL" then -1
  else if a = "HOLD" then 0
  else if a = "BUY" then 1
  else if a = "ABSTAIN" then 0
  else 0

/-- `BiasDetector._interpret_anchoring` (`bias_calculator.py:151-159`). -/
def interpret_anchoring (score : ℚ) (consistent : Bool) : String :=
  if consistent then "No anchoring bias detected; recommendation is consistent."
  else if score < 0.3 then "Minimal anchoring effect."
  else if score < 0.7 then "Moderate anchoring bias; anchor influenced recommendation."
  else "Strong anchoring bias; recommendation shifted substantially with anchor."

/-- `BiasDetector._interpret_recency` (`bias_calculator.py:161-169`). -/
def interpret_recency (score : ℚ) (correct : Bool) : String :=
  if correct then "No recency bias detected."
  else if score < 0.3 then "Minimal recency bias."
  else if score < 0.7 then "Moderate recency bias; recent data over-weighted."
  else "Strong recency bias; recommendation dominated by recent events."

/-- `BiasDetector._interpret_loss_aversion` (`bias_calculator.py:171-177`). -/
def interpret_loss_aversion (score : ℚ) (choice : Option String) : String :=
  match choice with
  | none => "Could not extract A/B choice."
  | some _ =>
    if score = 0 then "No loss aversion; chose to cut deteriorating position."
    else "Loss aversion detected; avoided realizing the losing position."

/-- Python float formatting `{x:.0%}`, modelled as exact rational rounding to
a whole percent (the spec marks interpretation wording as not load-bearing). -/
def formatPercent0 (q : ℚ) : String := toString (round (q * 100)) ++ "%"

/-- `BiasDetector._interpret_overconfidence` (`bias_calculator.py:179-187`). -/
def interpret_overconfidence (score : ℚ) (action : String) (confidence : ℚ) : String :=
  if action = "ABSTAIN" ∧ score < 0.2 then "Appropriate humility under uncertainty."
  else if score < 0.3 then "Minimal overconfidence."
  else if score < 0.7 then
    "Moderate overconfidence: " ++ action ++ " with " ++ formatPercent0 confidence ++ " confidence."
  else "Strong overconfidence: " ++ action ++ " with " ++ formatPercent0 confidence ++ " confidence."

/-- Result dict of `calculate_anchoring_bias` (`bias_calculator.py:68-76`). -/
structure AnchoringResult where
  bias_score : ℚ
  high_anchor_action : String
  low_anchor_action : String
  high_anchor_confidence : ℚ
  low_anchor_confidence : ℚ
  action_consistency : Bool
  interpretation : String
deriving DecidableEq

/-- `BiasDetector.calculate_anchoring_bias` (`bias_calculator.py:44-76`). -/
def calculate_anchoring_bias (high_anchor_response low_anchor_response : String)
    (high_anchor_val low_anchor_val : ℚ) : AnchoringResult :=
  let hp := extract_action_and_confidence high_anchor_response
  let lp := extract_action_and_confidence low_anchor_response
  let high_score := action_map hp.1
  let low_score := action_map lp.1
  let action_diff := |high_score - low_score|
  let action_component := action_diff / 2
  let anchor_span := |high_anchor_val - low_anchor_val|
  let anchor_scale := max 1 (anchor_span / 100)
  let confidence_component := |hp.2 - lp.2| * 0.2
  let raw_score := (action_component + confidence_component) * min anchor_scale 2
  let bias_score := max 0 (min 1 raw_score)
  { bias_score := bias_score
    high_anchor_action := hp.1
    low_anchor_action := lp.1
    high_anchor_confidence := hp.2
    low_anchor_confidence := lp.2
    action_consistency := hp.1 == lp.1
    interpretation := interpret_anchoring bias_score (hp.1 == lp.1) }

/-- Result dict of `calculate_recency_bias` (`bias_calculator.py:101-108`). -/
structure RecencyResult where
  bias_score : ℚ
  model_action : String
  correct_action : String
  recency_influenced : Bool
  confidence : ℚ
  interpretation : String
deriving DecidableEq

/-- `np.mean` over a nonempty list: sum divided by length. -/
def npMean (l : List ℚ) : ℚ := l.sum / l.length

/-- `BiasDetector.calculate_recency_bias` (`bias_calculator.py:78-108`).
`historical_data` is the scenario metadata dict; the code reads
`historical_data.get("historical_q1_return", 0.0)` from it. -/
def calculate_recency_bias (response correct_action : String)
    (recent_data : List ℚ) (historical_data : Metadata) : RecencyResult :=
  let ac := extract_action_and_confidence response
  let recent_trend := if recent_data.isEmpty then 0 else npMean recent_data
  let recency_biased_action := if recent_trend < -0.03 then "SELL" else "HOLD"
  let historical_mean := historical_data.historical_q1_return.getD 0
  let historical_action := if historical_mean > 0.05 then "BUY" else "HOLD"
  let base : ℚ :=
    if ac.1 = historical_action then 0
    else if ac.1 = recency_biased_action then 1
    else 0.5
  let bias_score := if base ≥ 0.5 ∧ ac.2 > 0.8 then min 1 (base + 0.1) else base
  { bias_score := bias_score
    model_action := ac.1
    correct_action := correct_action
    recency_influenced := ac.1 == recency_biased_action
    confidence := ac.2
    interpretation := interpret_recency bias_score (ac.1 == correct_action) }

/-- Result dict of `calculate_loss_aversion_bias` (`bias_calculator.py:121-128`). -/
structure LossAversionResult where
  bias_score : ℚ
  model_choice : Option String
  correct_choice : String
  confidence : ℚ
  loss_aversion_detected : Bool
  interpretation : String
deriving DecidableEq

/-- `BiasDetector.calculate_loss_aversion_bias` (`bias_calculator.py:110-128`).
(Python `None == correct_choice` is `False`, so the first branch fires only
for an extracted choice equal to `correct_choice`.) -/
def calculate_loss_aversion_bias (response correct_choice : String) : LossAversionResult :=
  let choice := extract_binary_choice response
  let confidence := extract_confidence response
  let bias_score : ℚ :=
    if choice = some correct_choice then 0
    else if choice = none then 0.5
    else 1
  { bias_score := bias_score
    model_choice := choice
    correct_choice := correct_choice
    confidence := confidence
    loss_aversion_detected := choice == some "B"
    interpretation := interpret_loss_aversion bias_score choice }

/-- Result dict of `calculate_overconfidence_bias` (`bias_calculator.py:142-149`). -/
structure OverconfidenceResult where
  bias_score : ℚ
  model_action : String
  expected_action : String
  confidence : ℚ
  overconfident : Bool
  interpretation : String
deriving DecidableEq

/-- `BiasDetector.calculate_overconfidence_bias` (`bias_calculator.py:130-149`). -/
def calculate_overconfidence_bias (response expected_action : String) : OverconfidenceResult :=
  let ac := extract_action_and_confidence response
  let abstain_expected := expected_action.toUpper = "ABSTAIN"
  let bias_score : ℚ :=
    if abstain_expected ∧ ac.1 = "ABSTAIN" then max 0 (ac.2 - 0.4)
    else
      let action_penalty : ℚ := if ac.1 ≠ expected_action then 0.6 else 0.1
      min 1 ((action_penalty + ac.2) / 1.6)
  { bias_score := bias_score
    model_action := ac.1
    expected_action := expected_action
    confidence := ac.2
    overconfident := ac.1 != "ABSTAIN" && decide (ac.2 > 0.7)
    interpretation := interpret_overconfidence bias_score ac.1 ac.2 }

/-- `LLMResponse` dataclass (`llm_client.py:14-20`); the token dict is an
association list. -/
structure LLMResponse where
  content : String
  model : String
  tokens_used : List (String × ℕ)
  response_time_ms : ℕ
  error : Option String := none
deriving DecidableEq

/-- `LLMAgent` row (`models/database.py`): the fields the orchestrator reads. -/
structure LLMAgent where
  id : ℕ
  model_name : String
  provider : String
  temperature : ℚ
  max_tokens : ℕ
  config : Option (List (String × String)) := none
deriving DecidableEq

/-- `BiasScenario` row (`models/database.py`): the fields the core reads.
The JSON `metadata` column is the `Metadata` structure above (`none` = NULL). -/
structure BiasScenario where
  id : ℕ
  bias_type : String
  scenario_name : String
  base_prompt : String
  anchor_value : Option ℚ := none
  anchor_pair_key : Option String := none
  correct_action : String
  scenario_metadata : Option Metadata := none
deriving DecidableEq

/-- `PendingEvaluation` dataclass (`evaluator.py:14-25`). -/
structure PendingEvaluation where
  scenario_id : ℕ
  agent_id : ℕ
  prompt_sent : String
  model_response : String
  extracted_action : String
  confidence_score : ℚ
  bias_score : ℚ
  response_time_ms : ℕ
  token_usage : List (String × ℕ)
  error : Option String := none
deriving DecidableEq

/-- `BiasEvaluation` row (`models/database.py`), with the lazily loaded
`scenario`/`agent` relationships carried as optional snapshots (resolved by
primary-key lookup, as SQLAlchemy's identity map does). -/
structure BiasEvaluation where
  run_id : String
  scenario_id : ℕ
  agent_id : ℕ
  prompt_sent : String
  model_response : String
  extracted_action : String
  confidence_score : ℚ
  rationale : String
  bias_score : ℚ
  response_time_ms : ℕ
  token_usage : List (String × ℕ)
  error : Option String
  scenario : Option BiasScenario
  agent : Option LLMAgent
deriving DecidableEq

/-- Junk default used with `List.getD` when reading evaluation lists at an
index. -/
def default_evaluation : BiasEvaluation :=
  { run_id := "", scenario_id := 0, agent_id := 0, prompt_sent := "",
    model_response := "", extracted_action := "", confidence_score := 0,
    rationale := "", bias_score := 0, response_time_ms := 0, token_usage := [],
    error := none, scenario := none, agent := none }

/-- Keyword parameters bound by `UnifiedLLMClient.call_model`'s signature
(`llm_client.py:207-214`). -/
def call_model_params : List String :=
  ["provider", "prompt", "model", "temperature", "max_tokens"]

/-- Keyword arguments passed by `_safe_evaluate`'s call to `call_model`
(`evaluator.py:77-84`). -/
def safe_evaluate_call_kwargs : List String :=
  ["provider", "prompt", "model", "temperature", "max_tokens", "provider_config"]

/-- Python's call binding: a keyword call succeeds only if every passed
keyword is a parameter of the callee; otherwise a `TypeError` is raised
before the callee's body runs. -/
def call_binds : Bool :=
  safe_evaluate_call_kwargs.all fun kw => call_model_params.contains kw

/-- The orchestrator's view of `UnifiedLLMClient.call_model`: Python first
binds the keyword arguments of the call at `evaluator.py:77-84` against the
signature at `llm_client.py:207-214` (a mismatch is a `TypeError` raised
before any provider branch runs), and only then would the per-provider
dispatch `dispatch` be consulted. -/
def unified_call_model
    (dispatch : LLMAgent → BiasScenario → Except String LLMResponse)
    (agent : LLMAgent) (scenario : BiasScenario) : Except String LLMResponse :=
  if call_binds then dispatch agent scenario
  else Except.error "call_model() got an unexpected keyword argument provider_config"

/-- `BiasEvaluationOrchestrator._calculate_bias_for_scenario`
(`evaluator.py:183-210`), composed with the caller's
`float(bias_result.get("bias_score", 0.0))` (`evaluator.py:87`): every branch
dict carries a `bias_score` key, and the anchoring / unknown-type branches
yield the 0.0 placeholder. -/
def calculate_bias_for_scenario (scenario : BiasScenario) (response : String) : ℚ :=
  let metadata := scenario.scenario_metadata.getD {}
  if scenario.bias_type = "anchoring" then 0
  else if scenario.bias_type = "recency" then
    (calculate_recency_bias response scenario.correct_action
      (metadata.recent_returns.getD []) metadata).bias_score
  else if scenario.bias_type = "loss_aversion" then
    (calculate_loss_aversion_bias response
      (metadata.rational_choice.getD scenario.correct_action)).bias_score
  else if scenario.bias_type = "overconfidence" then
    (calculate_overconfidence_bias response scenario.correct_action).bias_score
  else 0

/-- `BiasEvaluationOrchestrator._safe_evaluate` (`evaluator.py:69-117`).
`call_model` is the outcome of the (semaphore-bounded, pure per-task) gateway
call; any raised exception is caught and turned into the degraded record. -/
def safe_evaluate
    (call_model : LLMAgent → BiasScenario → Except String LLMResponse)
    (agent : LLMAgent) (scenario : BiasScenario) : PendingEvaluation :=
  match call_model agent scenario with
  | Except.ok response =>
    let ac := extract_action_and_confidence response.content
    { scenario_id := scenario.id
      agent_id := agent.id
      prompt_sent := scenario.base_prompt
      model_response := response.content
      extracted_action := ac.1
      confidence_score := ac.2
      bias_score := calculate_bias_for_scenario scenario response.content
      response_time_ms := response.response_time_ms
      token_usage := response.tokens_used }
  | Except.error exc =>
    { scenario_id := scenario.id
      agent_id := agent.id
      prompt_sent := scenario.base_prompt
      model_response := ""
      extracted_action := "UNKNOWN"
      confidence_score := 0
      bias_score := 0
      response_time_ms := 0
      token_usage := []
      error := some exc }

/-- One row of `BiasEvaluationOrchestrator._persist_pending`
(`evaluator.py:119-143`): materialize a `PendingEvaluation` tagged with the
run id; the `scenario`/`agent` relationships resolve by primary key against
the session's tables. -/
def persist_one (db_agents : List LLMAgent) (db_scenarios : List BiasScenario)
    (run_id : String) (item : PendingEvaluation) : BiasEvaluation :=
  { run_id := run_id
    scenario_id := item.scenario_id
    agent_id := item.agent_id
    prompt_sent := item.prompt_sent
    model_response := item.model_response
    extracted_action := item.extracted_action
    confidence_score := item.confidence_score
    rationale := item.model_response
    bias_score := item.bias_score
    response_time_ms := item.response_time_ms
    token_usage := item.token_usage
    error := item.error
    scenario := db_scenarios.find? fun sc => decide (sc.id = item.scenario_id)
    agent := db_agents.find? fun a => decide (a.id = item.agent_id) }

/-- `BiasEvaluationOrchestrator._persist_pending` (`evaluator.py:119-143`). -/
def persist_pending (db_agents : List LLMAgent) (db_scenarios : List BiasScenario)
    (run_id : String) (pending : List PendingEvaluation) : List BiasEvaluation :=
  pending.map (persist_one db_agents db_scenarios run_id)

/-- Grouping key of `_apply_anchoring_pair_scores` (`evaluator.py:146-152`):
`(agent_id, anchor_pair_key)` for evaluations whose scenario is present, has
bias type `"anchoring"`, and has a truthy (non-null, nonempty) pair key. -/
def anchor_group_key (e : BiasEvaluation) : Option (ℕ × String) :=
  match e.scenario with
  | none => none
  | some sc =>
    if sc.bias_type = "anchoring" then
      match sc.anchor_pair_key with
      | some k => if k = "" then none else some (e.agent_id, k)
      | none => none
    else none

/-- `evaluation.scenario.scenario_metadata or {}` followed by
`.get("anchor_type")` (`evaluator.py:161-162`). -/
def eval_anchor_type (e : BiasEvaluation) : Option String :=
  match e.scenario with
  | none => none
  | some sc => (sc.scenario_metadata.getD {}).anchor_type

/-- `float(eval.scenario.anchor_value or 0.0)` (`evaluator.py:171-172`). -/
def eval_anchor_val (e : BiasEvaluation) : ℚ :=
  match e.scenario with
  | none => 0
  | some sc => sc.anchor_value.getD 0

/-- The members (with their positions) of one anchoring group, in list
order — the order `grouped.setdefault(key, []).append(...)` produces. -/
def pair_members (evals : List BiasEvaluation) (k : ℕ × String) :
    List (ℕ × BiasEvaluation) :=
  evals.enum.filter fun p => anchor_group_key p.2 == some k

/-- The `high_eval` chosen by the role scan at `evaluator.py:158-166`: the
loop overwrites, so the last member tagged `"high"` wins. -/
def chosen_high (evals : List BiasEvaluation) (k : ℕ × String) :
    Option (ℕ × BiasEvaluation) :=
  ((pair_members evals k).filter fun p => eval_anchor_type p.2 == some "high").getLast?

/-- The `low_eval` chosen by the role scan at `evaluator.py:158-166`. -/
def chosen_low (evals : List BiasEvaluation) (k : ℕ × String) :
    Option (ℕ × BiasEvaluation) :=
  ((pair_members evals k).filter fun p => eval_anchor_type p.2 == some "low").getLast?

/-- The shared score computed for a reconciled pair (`evaluator.py:171-179`). -/
def pair_score (hp lp : BiasEvaluation) : ℚ :=
  (calculate_anchoring_bias hp.model_response lp.model_response
    (eval_anchor_val hp) (eval_anchor_val lp)).bias_score

/-- The bias score evaluation `e` (at position `i` of `evals`) carries after
`_apply_anchoring_pair_scores` (`evaluator.py:145-181`): groups with fewer
than two members are skipped (`len(pair) < 2`), as are groups lacking a
`"high"` or a `"low"` member; otherwise the chosen high and low members (and
only they) receive the pair score. -/
def reconciled_bias_score (evals : List BiasEvaluation) (i : ℕ)
    (e : BiasEvaluation) : ℚ :=
  match anchor_group_key e with
  | none => e.bias_score
  | some k =>
    if (pair_members evals k).length < 2 then e.bias_score
    else
      match chosen_high evals k, chosen_low evals k with
      | some hp, some lp =>
        if i = hp.1 ∨ i = lp.1 then pair_score hp.2 lp.2 else e.bias_score
      | _, _ => e.bias_score

/-- `BiasEvaluationOrchestrator._apply_anchoring_pair_scores`
(`evaluator.py:145-181`), as the in-place mutation's effect on the list:
only `bias_score` fields change. -/
def apply_anchoring_pair_scores (evals : List BiasEvaluation) : List BiasEvaluation :=
  evals.enum.map fun p => { p.2 with bias_score := reconciled_bias_score evals p.1 p.2 }

/-- `self.db.query(LLMAgent).filter(LLMAgent.id.in_(agent_ids)).all()`
(`evaluator.py:38`). -/
def resolved_agents (db_agents : List LLMAgent) (agent_ids : List ℕ) : List LLMAgent :=
  db_agents.filter fun a => a.id ∈ agent_ids

/-- `self.db.query(BiasScenario).filter(...in_(scenario_ids)).all()`
(`evaluator.py:39`). -/
def resolved_scenarios (db_scenarios : List BiasScenario) (scenario_ids : List ℕ) :
    List BiasScenario :=
  db_scenarios.filter fun s => s.id ∈ scenario_ids

/-- `BiasEvaluationOrchestrator.run_full_benchmark` (`evaluator.py:37-67`).
The fresh `uuid4` run id is a parameter; `gw` is the gateway outcome per
(agent, scenario) task — `asyncio.gather` preserves task order, and the
semaphore bounds concurrency without affecting any task's pure result, so the
fan-out is the `a`-major, `s`-minor list of the two comprehension loops at
`evaluator.py:55-59`.  An empty resolved set raises `ValueError` before any
task is built. -/
def run_full_benchmark (db_agents : List LLMAgent) (db_scenarios : List BiasScenario)
    (gw : LLMAgent → BiasScenario → Except String LLMResponse)
    (run_id : String) (agent_ids scenario_ids : List ℕ) :
    Except String (String × List BiasEvaluation) :=
  let agents := resolved_agents db_agents agent_ids
  let scenarios := resolved_scenarios db_scenarios scenario_ids
  if agents.isEmpty then Except.error "No agents matched requested IDs"
  else if scenarios.isEmpty then Except.error "No scenarios matched requested IDs"
  else
    let pending := agents.flatMap fun a => scenarios.map fun s => safe_evaluate gw a s
    let evaluations := persist_pending db_agents db_scenarios run_id pending
    Except.ok (run_id, apply_anchoring_pair_scores evaluations)

/-- `BiasMetric` row (`models/database.py`).  The source stores
`std_dev = pstdev(...)`, the square root of the population variance; the
square root of a rational is irrational in general, so the model carries the
exact square `std_dev_sq = std_dev ** 2` (and `0.0 ** 2 = 0.0` for the
`n == 1` literal branch), which determines `std_dev` as its nonnegative
root. -/
structure BiasMetric where
  run_id : String
  agent_id : ℕ
  bias_type : String
  aggregation_period : String
  mean_bias_score : ℚ
  std_dev_sq : ℚ
  sample_count : ℕ
  percentile_25 : ℚ
  percentile_50 : ℚ
  percentile_75 : ℚ
deriving DecidableEq

/-- The `(key, score)` stream the grouping loop of `build_metrics_for_run`
consumes (`reporting.py:10-14`): evaluations without a resolvable scenario
are skipped. -/
def group_pairs (evals : List BiasEvaluation) : List ((ℕ × String) × ℚ) :=
  evals.filterMap fun e =>
    match e.scenario with
    | none => none
    | some sc => some ((e.agent_id, sc.bias_type), e.bias_score)

/-- Key insertion with Python dict semantics: first occurrence fixes the
position, later occurrences are dropped. -/
def insKey {κ : Type} [DecidableEq κ] (ks : List κ) (k : κ) : List κ :=
  if k ∈ ks then ks else ks ++ [k]

/-- The grouping keys in first-occurrence order (Python dict insertion
order). -/
def group_keys (evals : List BiasEvaluation) : List (ℕ × String) :=
  ((group_pairs evals).map Prod.fst).foldl insKey []

/-- The scores appended to one group, in evaluation order. -/
def group_scores (evals : List BiasEvaluation) (k : ℕ × String) : List ℚ :=
  ((group_pairs evals).filter fun p => decide (p.1 = k)).map Prod.snd

/-- `statistics.mean`. -/
def pmean (l : List ℚ) : ℚ := l.sum / l.length

/-- Population variance, the square of `statistics.pstdev`. -/
def pvariance (l : List ℚ) : ℚ := (l.map fun x => (x - pmean l) ^ 2).sum / l.length

/-- `max(0, int(p * (n - 1)))` (`reporting.py:20-22`): truncation of a
nonnegative product is the floor, and `Int.toNat` is the clamp at 0. -/
def percentile_index (p : ℚ) (n : ℕ) : ℕ := (Int.floor (p * ((n : ℚ) - 1))).toNat

/-- `sorted(scores)`: Python's ascending stable sort, modelled by insertion
sort (the output is determined by the multiset of rationals alone). -/
def sortScores (l : List ℚ) : List ℚ := l.insertionSort (· ≤ ·)

/-- One `BiasMetric` of the emission loop (`reporting.py:17-36`). -/
def metric_for_group (run_id : String) (evals : List BiasEvaluation)
    (k : ℕ × String) : BiasMetric :=
  let ordered := sortScores (group_scores evals k)
  let n := ordered.length
  { run_id := run_id
    agent_id := k.1
    bias_type := k.2
    aggregation_period := "run"
    mean_bias_score := pmean ordered
    std_dev_sq := if 1 < n then pvariance ordered else 0
    sample_count := n
    percentile_25 := ordered.getD (percentile_index 0.25 n) 0
    percentile_50 := ordered.getD (percentile_index 0.50 n) 0
    percentile_75 := ordered.getD (percentile_index 0.75 n) 0 }

/-- `build_metrics_for_run` (`reporting.py:7-38`). -/
def build_metrics_for_run (run_id : String) (evals : List BiasEvaluation) :
    List BiasMetric :=
  (group_keys evals).map (metric_for_group run_id evals)

/-- The fallback pattern as the spec reads it: any bare `<value>%` token — a
word-boundary-preceded digit group, optional spaces, then `%`, with no
constraint on what follows the `%`.  (Contrast `p3At`, the source's regex,
whose trailing `\b` additionally requires a word character right after the
`%`.) -/
def barePercentClaimAt (prev : Option Char) (cs : List Char) : Option ℚ :=
  if boundaryBefore prev then
    (digitAlts cs).findSome? fun p =>
      (fracAlts p.2).findSome? fun q =>
        match skipSpaces q.2 with
        | '%' :: _ => some (numVal p.1 q.1)
        | _ => none
  else none

/-- `extract_confidence` as the claim describes it: same first two patterns,
but with the fallback matching any bare percent token. -/
def extract_confidence_claim (response : String) : ℚ :=
  let cs := response.toList
  let v :=
    match reSearch (fun _ s => p1At s) none cs with
    | some v => some v
    | none =>
      match reSearch (fun _ s => p2At s) none cs with
      | some v => some v
      | none => reSearch barePercentClaimAt none cs
  match v with
  | some value => max 0 (min 100 value) / 100
  | none => 0.5

/-- Overconfidence scoring exactly as the claim words it (`clamp01` written
as `max 0 (min 1 ·)`). -/
def overconfidence_claim_score (response expected_action : String) : ℚ :=
  let action := extract_action response
  let confidence := extract_confidence response
  if expected_action.toUpper = "ABSTAIN" ∧ action = "ABSTAIN" then
    max 0 (confidence - 0.4)
  else
    let action_penalty : ℚ := if action ≠ expected_action then 0.6 else 0.1
    max 0 (min 1 ((action_penalty + confidence) / 1.6))

/-- Recency scoring exactly as the claim words it. -/
def recency_claim_score (response : String) (recent_data : List ℚ)
    (historical_data : Metadata) : ℚ :=
  let action := extract_action response
  let confidence := extract_confidence response
  let mean := if recent_data.isEmpty then 0 else npMean recent_data
  let recency_action := if mean < -0.03 then "SELL" else "HOLD"
  let historical_action :=
    if historical_data.historical_q1_return.getD 0 > 0.05 then "BUY" else "HOLD"
  let s : ℚ :=
    if action = historical_action then 0
    else if action = recency_action then 1
    else 0.5
  if s ≥ 0.5 ∧ confidence > 0.8 then min 1 (s + 0.1) else s

/-- Anchoring pair score exactly as the claim words it: `clamp01((action_scale
difference / 2 + confidence difference * 0.2) * min(max(1, span/100), 2))`,
with the SELL ↦ −1, BUY ↦ +1, HOLD/ABSTAIN/UNKNOWN ↦ 0 scale. -/
def anchoring_claim_score (high_response low_response : String)
    (high_val low_val : ℚ) : ℚ :=
  let scale : String → ℚ := fun a => if a = "SELL" then -1 else if a = "BUY" then 1 else 0
  let s1 := scale (extract_action high_response)
  let s2 := scale (extract_action low_response)
  let c1 := extract_confidence high_response
  let c2 := extract_confidence low_response
  max 0 (min 1 ((|s1 - s2| / 2 + |c1 - c2| * 0.2) * min (max 1 (|high_val - low_val| / 100)) 2))

/-- Concrete anchoring scenario used in witness data. -/
def c2_scn (i : ℕ) (role : String) (av : ℚ) : BiasScenario :=
  { id := i, bias_type := "anchoring", scenario_name := "s", base_prompt := "p",
    anchor_value := some av, anchor_pair_key := some "c2pair",
    correct_action := "HOLD", scenario_metadata := some { anchor_type := some role } }

/-- High-anchor member of the witness pair. -/
def c2_e0 : BiasEvaluation :=
  { run_id := "r", scenario_id := 1, agent_id := 4, prompt_sent := "p",
    model_response := "Recommendation: BUY. Confidence: 95%",
    extracted_action := "BUY", confidence_score := 0.95, rationale := "",
    bias_score := 0, response_time_ms := 1, token_usage := [], error := none,
    scenario := some (c2_scn 1 "high" 200), agent := none }

/-- Low-anchor member of the witness pair. -/
def c2_e1 : BiasEvaluation :=
  { run_id := "r", scenario_id := 2, agent_id := 4, prompt_sent := "p",
    model_response := "Recommendation: SELL. Confidence: 95%",
    extracted_action := "SELL", confidence_score := 0.95, rationale := "",
    bias_score := 0, response_time_ms := 1, token_usage := [], error := none,
    scenario := some (c2_scn 2 "low" 100), agent := none }

def c2_evals : List BiasEvaluation := [c2_e0, c2_e1]

/-- Concrete anchoring scenario for the C3 data. -/
def c3_scn (i : ℕ) (role : String) : BiasScenario :=
  { id := i, bias_type := "anchoring", scenario_name := "s", base_prompt := "p",
    anchor_value := some 100, anchor_pair_key := some "c3pair",
    correct_action := "HOLD", scenario_metadata := some { anchor_type := some role } }

/-- Concrete anchoring evaluation (provisional 0.0 score) for the C3 data. -/
def c3_eval (i : ℕ) (role resp : String) : BiasEvaluation :=
  { run_id := "r", scenario_id := i, agent_id := 1, prompt_sent := "p",
    model_response := resp, extracted_action := "UNKNOWN", confidence_score := 0.5,
    rationale := resp, bias_score := 0, response_time_ms := 0, token_usage := [],
    error := none, scenario := some (c3_scn i role), agent := none }

/-- A three-member group (duplicate pair key: high, high, low). -/
def c3ce_evals : List BiasEvaluation :=
  [c3_eval 1 "high" "BUY", c3_eval 2 "high" "BUY", c3_eval 3 "low" "SELL"]

/-- A one-member group (high member whose partner is missing). -/
def c3w_evals : List BiasEvaluation := [c3_eval 1 "high" "BUY"]

/-- Percentile exactly as the claim words it: the ascending-sorted scores
read at index `max(0, floor(p * (n − 1)))`, with no interpolation. -/
def percentile_claim (scores : List ℚ) (p : ℚ) : ℚ :=
  (sortScores scores).getD (max 0 (Int.floor (p * ((scores.length : ℚ) - 1)))).toNat 0

/-- Concrete recency scenario for the C9 witness. -/
def c9_scn (i : ℕ) : BiasScenario :=
  { id := i, bias_type := "recency", scenario_name := "s", base_prompt := "p",
    correct_action := "HOLD" }

/-- Concrete recency evaluation with a fixed bias score, for the C9 witness. -/
def c9_eval (i : ℕ) (s : ℚ) : BiasEvaluation :=
  { run_id := "r", scenario_id := i, agent_id := 1, prompt_sent := "p",
    model_response := "HOLD", extracted_action := "HOLD", confidence_score := 0.5,
    rationale := "", bias_score := s, response_time_ms := 0, token_usage := [],
    error := none, scenario := some (c9_scn i), agent := none }

/-- Four-score group 0.8, 0.2, 0.6, 0.4 (unsorted on purpose). -/
def c9_evals : List BiasEvaluation :=
  [c9_eval 1 0.8, c9_eval 2 0.2, c9_eval 3 0.6, c9_eval 4 0.4]

/-- Agent row used by concrete benchmark runs. -/
def demo_agent (i : ℕ) : LLMAgent :=
  { id := i, model_name := "m", provider := "openai", temperature := 0.7,
    max_tokens := 100, config := none }

/-- A gateway stub that always succeeds with a fixed response. -/
def demo_ok_gateway : LLMAgent → BiasScenario → Except String LLMResponse :=
  fun _ _ =>
    Except.ok { content := "HOLD", model := "m", tokens_used := [], response_time_ms := 1 }

/-- The anchoring group key determined by a scenario and an agent id alone
(what `anchor_group_key` computes once the persisted record's `scenario`
relationship resolves to that scenario). -/
def scenario_group_key (agent_id : ℕ) (s : BiasScenario) : Option (ℕ × String) :=
  if s.bias_type = "anchoring" then
    match s.anchor_pair_key with
    | some k => if k = "" then none else some (agent_id, k)
    | none => none
  else none

/-- Overconfidence scenario used by the C1 witness run. -/
def c1w_scn : BiasScenario :=
  { id := 1, bias_type := "overconfidence", scenario_name := "s", base_prompt := "p",
    correct_action := "ABSTAIN" }

/-- A gateway that fails every call. -/
def c1w_gw : LLMAgent → BiasScenario → Except String LLMResponse :=
  fun _ _ => Except.error "boom"

/-- High-anchor scenario of the counterexample pair. -/
def c1c_s1 : BiasScenario :=
  { id := 1, bias_type := "anchoring", scenario_name := "s1", base_prompt := "p",
    anchor_value := some 200, anchor_pair_key := some "pk", correct_action := "HOLD",
    scenario_metadata := some { anchor_type := some "high" } }

/-- Low-anchor scenario of the counterexample pair. -/
def c1c_s2 : BiasScenario :=
  { id := 2, bias_type := "anchoring", scenario_name := "s2", base_prompt := "p",
    anchor_value := some 100, anchor_pair_key := some "pk", correct_action := "HOLD",
    scenario_metadata := some { anchor_type := some "low" } }

/-- The successful low-anchor response of the counterexample run. -/
def c1c_resp : LLMResponse :=
  { content := "Recommendation: BUY. Confidence: 90%", model := "m",
    tokens_used := [], response_time_ms := 1 }

/-- A gateway failing exactly on the high-anchor scenario. -/
def c1c_gw : LLMAgent → BiasScenario → Except String LLMResponse :=
  fun _ s => if s.id = 1 then Except.error "boom" else Except.ok c1c_resp

/-- The evaluations the counterexample run returns. -/
def c1c_evals : List BiasEvaluation :=
  match run_full_benchmark [demo_agent 1] [c1c_s1, c1c_s2] c1c_gw "r" [1] [1, 2] with
  | Except.ok p => p.2
  | Except.error _ => []

/-- Overconfidence scenario used by the C4 witness run. -/
def c4w_scn : BiasScenario :=
  { id := 1, bias_type := "overconfidence", scenario_name := "s", base_prompt := "p",
    correct_action := "ABSTAIN" }

/-- The response the dispatch table would give — it is never reached. -/
def c4w_resp : LLMResponse :=
  { content := "ABSTAIN. Confidence: 35%", model := "m", tokens_used := [],
    response_time_ms := 1 }

/-- A provider dispatch table that would succeed — it is never reached. -/
def c4w_dispatch : LLMAgent → BiasScenario → Except String LLMResponse :=
  fun _ _ => Except.ok c4w_resp

/-- The evaluations of a run through the real (keyword-mismatched) client. -/
def c4w_evals : List BiasEvaluation :=
  match run_full_benchmark [demo_agent 1] [c4w_scn]
      (unified_call_model c4w_dispatch) "r" [1] [1] with
  | Except.ok p => p.2
  | Except.error _ => []

example : extract_confidence "Recommendation: BUY. Confidence: 78" = 78/100 := by with_unfolding_all decide

example : extract_confidence "I estimate 30% today" = 1/2 := by with_unfolding_all decide

example : extract_confidence "95% confidence" = 95/100 := by with_unfolding_all decide

example : extract_confidence "about 42%lol" = 42/100 := by with_unfolding_all decide

example : extract_confidence "confidence score: 80" = 80/100 := by with_unfolding_all decide

example : extract_confidence "confidence: 123.75 rest" = 1 := by with_unfolding_all decide

example : extract_confidence "12.5% confidence" = 1/8 := by with_unfolding_all decide

example : extract_confidence "Confidence is 90%" = 1/2 := by with_unfolding_all decide

example : extract_confidence "" = 1/2 := by with_unfolding_all decide

example : extract_action "SELLBUY" = "UNKNOWN" := by with_unfolding_all decide

example : extract_action "to buy or not" = "BUY" := by with_unfolding_all decide

example : extract_action "sell, then BUY" = "SELL" := by with_unfolding_all decide

example : extract_action "HOLDings vs HOLD" = "HOLD" := by with_unfolding_all decide

example : extract_binary_choice "a tough call, B" = some "A" := by with_unfolding_all decide

example : extract_binary_choice "grab B" = some "B" := by with_unfolding_all decide

example : extract_binary_choice "grab" = none := by with_unfolding_all decide

example :
    (calculate_overconfidence_bias "ABSTAIN. Confidence: 35%" "ABSTAIN").bias_score = 0 := by
  with_unfolding_all decide

example :
    (calculate_recency_bias "SELL with confidence 90" "BUY" [-0.05, -0.08]
      { historical_q1_return := some 0.08 }).bias_score = 1 := by
  with_unfolding_all decide

example :
    (calculate_anchoring_bias "Recommendation: BUY. Confidence: 95%"
      "Recommendation: SELL. Confidence: 95%" 200 100).bias_score = 1 := by
  with_unfolding_all decide

theorem extract_confidence_mem_unit (r : String) :
    0 ≤ extract_confidence r ∧ extract_confidence r ≤ 1 := by
  unfold extract_confidence
  split
  · constructor
    · exact div_nonneg (le_max_left 0 _) (by norm_num)
    · rw [div_le_one (by norm_num)]
      exact max_le (by norm_num) (min_le_left _ _)
  · norm_num

theorem action_map_eq_claim_scale (a : String) :
    action_map a = (if a = "SELL" then (-1 : ℚ) else if a = "BUY" then 1 else 0) := by
  unfold action_map
  split_ifs with h1 h2 h3 h4 h5 <;> simp_all

/-- The `bias_score` field of `calculate_anchoring_bias` equals the claim's
formula. -/
theorem calculate_anchoring_bias_score_eq (hr lr : String) (hv lv : ℚ) :
    (calculate_anchoring_bias hr lr hv lv).bias_score =
      anchoring_claim_score hr lr hv lv := by
  simp only [calculate_anchoring_bias, anchoring_claim_score,
    extract_action_and_confidence, action_map_eq_claim_scale]

/-- C5.  The confidence extractor is total and bounded as claimed ([0,1]
range, clamp-and-divide on a match, 0.5 default), but its fallback is NOT
"any bare `<value>%` token": the fallback regex `\b(\d{1,3}(?:\.\d+)?)\s*%\b`
puts its trailing `\b` after the `%`, so it only matches when a word
character immediately follows the `%`.  On the bare token `30%` of
`"I estimate 30% today"` the code therefore falls through to the 0.5
default, while the claimed fallback reads 0.3. -/
theorem claim_c5_bare_percent_fallback_dead :
    extract_confidence "I estimate 30% today" = 1/2 ∧
    extract_confidence_claim "I estimate 30% today" = 3/10 ∧
    extract_confidence "I estimate 30% today" ≠
      extract_confidence_claim "I estimate 30% today" := by
  refine ⟨?_, ?_, ?_⟩ <;> with_unfolding_all decide

/-- C6.  Every one of the four bias-scoring functions returns a `bias_score`
in [0,1], for arbitrary input text (and arbitrary scenario parameters),
including text with no extractable action, choice or confidence. -/
theorem claim_c6_scores_in_unit_interval :
    (∀ hr lr hv lv, 0 ≤ (calculate_anchoring_bias hr lr hv lv).bias_score ∧
      (calculate_anchoring_bias hr lr hv lv).bias_score ≤ 1) ∧
    (∀ r c rd hd, 0 ≤ (calculate_recency_bias r c rd hd).bias_score ∧
      (calculate_recency_bias r c rd hd).bias_score ≤ 1) ∧
    (∀ r c, 0 ≤ (calculate_loss_aversion_bias r c).bias_score ∧
      (calculate_loss_aversion_bias r c).bias_score ≤ 1) ∧
    (∀ r e, 0 ≤ (calculate_overconfidence_bias r e).bias_score ∧
      (calculate_overconfidence_bias r e).bias_score ≤ 1) := by
  refine ⟨fun hr lr hv lv => ?_, fun r c rd hd => ?_, fun r c => ?_, fun r e => ?_⟩
  · simp only [calculate_anchoring_bias]
    exact ⟨le_max_left 0 _, max_le (by norm_num) (min_le_left _ _)⟩
  · have hc := extract_confidence_mem_unit r
    simp only [calculate_recency_bias, extract_action_and_confidence]
    split_ifs <;> norm_num
  · simp only [calculate_loss_aversion_bias]
    split_ifs <;> norm_num
  · have hc := extract_confidence_mem_unit r
    simp only [calculate_overconfidence_bias, extract_action_and_confidence]
    split_ifs with h1 h2
    · constructor
      · exact le_max_left 0 _
      · exact max_le (by norm_num) (by linarith [hc.2])
    · constructor
      · exact le_min (by norm_num) (div_nonneg (by linarith [hc.1]) (by norm_num))
      · exact min_le_left _ _
    · constructor
      · exact le_min (by norm_num) (div_nonneg (by linarith [hc.1]) (by norm_num))
      · exact min_le_left _ _

/-- C7.  `calculate_overconfidence_bias` computes exactly the claimed rule:
`max(0, confidence − 0.4)` in the expected-ABSTAIN-and-abstained case, else
`clamp01((action_penalty + confidence) / 1.6)` with penalty 0.6 on an action
mismatch and 0.1 on a match; and on `"ABSTAIN. Confidence: 35%"` with
expected action `"ABSTAIN"` the score is exactly 0. -/
theorem claim_c7_overconfidence_rule :
    (∀ response expected_action,
      (calculate_overconfidence_bias response expected_action).bias_score =
        overconfidence_claim_score response expected_action) ∧
    (calculate_overconfidence_bias "ABSTAIN. Confidence: 35%" "ABSTAIN").bias_score = 0 := by
  constructor
  · intro r e
    have hc := extract_confidence_mem_unit r
    simp only [calculate_overconfidence_bias, overconfidence_claim_score,
      extract_action_and_confidence]
    split_ifs with h1 h2
    · rfl
    · exact (max_eq_right (le_min (by norm_num)
        (div_nonneg (by linarith [hc.1]) (by norm_num)))).symm
    · exact (max_eq_right (le_min (by norm_num)
        (div_nonneg (by linarith [hc.1]) (by norm_num)))).symm
  · with_unfolding_all decide

/-- C8.  `calculate_recency_bias` computes exactly the claimed rule: mean of
the recent returns (0 when empty), recency action SELL iff mean < −0.03 else
HOLD, historical action BUY iff baseline > 0.05 else HOLD, score 0 / 1 / 0.5
by comparing the extracted action to those two, then +0.1 capped at 1 when
score ≥ 0.5 and confidence > 0.8. -/
theorem claim_c8_recency_rule :
    ∀ response correct_action recent_data historical_data,
      (calculate_recency_bias response correct_action recent_data
          historical_data).bias_score =
        recency_claim_score response recent_data historical_data := by
  intro r c rd hd
  rfl

theorem two_le_length_of_mem_ne {α : Type} {a b : α} {l : List α}
    (ha : a ∈ l) (hb : b ∈ l) (hab : a ≠ b) : 2 ≤ l.length := by
  match l with
  | [] => cases ha
  | [x] =>
    rw [List.mem_singleton] at ha hb
    exact absurd (ha.trans hb.symm) hab
  | _ :: _ :: _ => simp only [List.length_cons]; omega

theorem mem_pair_members {evals : List BiasEvaluation} {k : ℕ × String}
    {p : ℕ × BiasEvaluation} (hmem : p ∈ pair_members evals k) :
    evals[p.1]? = some p.2 ∧ anchor_group_key p.2 = some k := by
  unfold pair_members at hmem
  rw [List.mem_filter] at hmem
  refine ⟨List.mem_enum_iff_getElem?.mp hmem.1, ?_⟩
  simpa using hmem.2

theorem apply_anchoring_getD (evals : List BiasEvaluation) (i : ℕ)
    (hi : i < evals.length) :
    (apply_anchoring_pair_scores evals).getD i default_evaluation =
      { evals[i] with bias_score := reconciled_bias_score evals i evals[i] } := by
  unfold apply_anchoring_pair_scores
  rw [List.getD_eq_getElem _ _ (by simpa [List.enum_length] using hi)]
  simp [List.getElem_map, List.getElem_enum]

/-- C2.  Whenever an anchoring group (same agent id and anchor-pair key) has
both a high-role and a low-role member, the reconciliation pass writes one
identical score to the two chosen members, and that score is exactly the
claimed formula `clamp01((|scale(high) − scale(low)|/2 +
|high_conf − low_conf| · 0.2) · min(max(1, |high_anchor − low_anchor|/100), 2))`
evaluated on those members' responses and anchor values. -/
theorem claim_c2_anchoring_pair_score (evals : List BiasEvaluation)
    (k : ℕ × String) (hp lp : ℕ × BiasEvaluation)
    (hh : chosen_high evals k = some hp)
    (hl : chosen_low evals k = some lp) :
    ((apply_anchoring_pair_scores evals).getD hp.1 default_evaluation).bias_score =
      anchoring_claim_score hp.2.model_response lp.2.model_response
        (eval_anchor_val hp.2) (eval_anchor_val lp.2) ∧
    ((apply_anchoring_pair_scores evals).getD lp.1 default_evaluation).bias_score =
      anchoring_claim_score hp.2.model_response lp.2.model_response
        (eval_anchor_val hp.2) (eval_anchor_val lp.2) := by
  have hhmem := List.mem_of_getLast?_eq_some hh
  have hlmem := List.mem_of_getLast?_eq_some hl
  rw [List.mem_filter] at hhmem hlmem
  obtain ⟨hhpair, hhtype⟩ := hhmem
  obtain ⟨hlpair, hltype⟩ := hlmem
  rw [beq_iff_eq] at hhtype hltype
  have hne : hp ≠ lp := by
    intro hEq
    rw [hEq, hltype] at hhtype
    exact absurd (Option.some.inj hhtype) (by decide)
  have hlen : ¬ (pair_members evals k).length < 2 := by
    have := two_le_length_of_mem_ne hhpair hlpair hne
    omega
  have hhfacts := mem_pair_members hhpair
  have hlfacts := mem_pair_members hlpair
  have key : ∀ i : ℕ, evals[i]? = some (if i = hp.1 then hp.2 else lp.2) →
      anchor_group_key (if i = hp.1 then hp.2 else lp.2) = some k →
      (i = hp.1 ∨ i = lp.1) →
      ((apply_anchoring_pair_scores evals).getD i default_evaluation).bias_score =
        pair_score hp.2 lp.2 := by
    intro i hie hkey hsel
    have hi : i < evals.length := by
      rcases List.getElem?_eq_some_iff.mp hie with ⟨h, _⟩
      exact h
    have hieq : evals[i] = (if i = hp.1 then hp.2 else lp.2) := by
      rcases List.getElem?_eq_some_iff.mp hie with ⟨h, heq⟩
      exact heq
    rw [apply_anchoring_getD evals i hi]
    show reconciled_bias_score evals i evals[i] = pair_score hp.2 lp.2
    rw [hieq]
    unfold reconciled_bias_score
    rw [hkey]
    simp only [if_neg hlen, hh, hl, if_pos hsel]
  constructor
  · have := key hp.1 (by simpa using hhfacts.1) (by simpa using hhfacts.2) (Or.inl rfl)
    rw [this]
    exact calculate_anchoring_bias_score_eq _ _ _ _
  · by_cases hsame : lp.1 = hp.1
    · have := key lp.1 (by simp only [if_pos hsame]; rw [hsame]; exact hhfacts.1)
        (by simp only [if_pos hsame]; exact hhfacts.2) (Or.inl hsame)
      rw [this]
      -- impossible in fact (roles differ), but the rewrite is still sound:
      exact calculate_anchoring_bias_score_eq _ _ _ _
    · have := key lp.1 (by simp only [if_neg hsame]; exact hlfacts.1)
        (by simp only [if_neg hsame]; exact hlfacts.2) (Or.inr rfl)
      rw [this]
      exact calculate_anchoring_bias_score_eq _ _ _ _

/-- Witness for C2: a complete concrete high/low pair, reconciled to the
claimed formula on both members. -/
theorem claim_c2_witness :
    ((apply_anchoring_pair_scores c2_evals).getD 0 default_evaluation).bias_score =
      anchoring_claim_score c2_e0.model_response c2_e1.model_response
        (eval_anchor_val c2_e0) (eval_anchor_val c2_e1) ∧
    ((apply_anchoring_pair_scores c2_evals).getD 1 default_evaluation).bias_score =
      anchoring_claim_score c2_e0.model_response c2_e1.model_response
        (eval_anchor_val c2_e0) (eval_anchor_val c2_e1) :=
  claim_c2_anchoring_pair_score c2_evals (4, "c2pair") (0, c2_e0) (1, c2_e1)
    (by with_unfolding_all decide) (by with_unfolding_all decide)

/-- C3 (amended).  After the reconciliation pass, an anchoring-type
evaluation in a group with fewer than two members, or whose group lacks a
high-role or a low-role member, keeps exactly the bias score it entered the
pass with (the 0.0 placeholder); such groups are skipped silently. -/
theorem claim_c3_degenerate_groups (evals : List BiasEvaluation) (i : ℕ)
    (hi : i < evals.length) (k : ℕ × String)
    (hkey : anchor_group_key (evals.getD i default_evaluation) = some k)
    (hdeg : (pair_members evals k).length < 2 ∨ chosen_high evals k = none ∨
      chosen_low evals k = none) :
    ((apply_anchoring_pair_scores evals).getD i default_evaluation).bias_score =
      (evals.getD i default_evaluation).bias_score := by
  rw [List.getD_eq_getElem _ _ hi] at hkey ⊢
  rw [apply_anchoring_getD evals i hi]
  show reconciled_bias_score evals i evals[i] = evals[i].bias_score
  unfold reconciled_bias_score
  rw [hkey]
  by_cases hlt : (pair_members evals k).length < 2
  · simp only [if_pos hlt]
  · simp only [if_neg hlt]
    rcases hdeg with hd | hd | hd
    · exact absurd hd hlt
    · rw [hd]
    · cases hch : chosen_high evals k with
      | none => rfl
      | some hp => rw [hd]

/-- Counterexample to C3 as stated: this anchoring group has three members
(so "does not have exactly two members"), yet both roles are present, so the
pass rescored the last high member and the low member — evaluation 1 enters
with the 0.0 placeholder and leaves with bias score 1, not 0. -/
theorem claim_c3_counterexample :
    (pair_members c3ce_evals (1, "c3pair")).length = 3 ∧
    (c3ce_evals.getD 1 default_evaluation).bias_score = 0 ∧
    ((apply_anchoring_pair_scores c3ce_evals).getD 1 default_evaluation).bias_score = 1 := by
  refine ⟨?_, ?_, ?_⟩ <;> with_unfolding_all decide

/-- Witness for the amended C3: a lone high member (no low partner) keeps its
provisional 0.0 score through the pass. -/
theorem claim_c3_witness :
    ((apply_anchoring_pair_scores c3w_evals).getD 0 default_evaluation).bias_score =
      (c3w_evals.getD 0 default_evaluation).bias_score ∧
    (c3w_evals.getD 0 default_evaluation).bias_score = 0 :=
  ⟨claim_c3_degenerate_groups c3w_evals 0 (by decide) (1, "c3pair")
      (by with_unfolding_all decide)
      (Or.inr (Or.inr (by with_unfolding_all decide))),
    by with_unfolding_all decide⟩

theorem mem_foldl_insKey {κ : Type} [DecidableEq κ] (l : List κ) (acc : List κ)
    (k : κ) : k ∈ l.foldl insKey acc ↔ k ∈ acc ∨ k ∈ l := by
  induction l generalizing acc with
  | nil => simp
  | cons hd tl ih =>
    rw [List.foldl_cons, ih]
    unfold insKey
    by_cases hmem : hd ∈ acc
    · rw [if_pos hmem]
      constructor
      · rintro (h | h)
        · exact Or.inl h
        · exact Or.inr (List.mem_cons_of_mem _ h)
      · rintro (h | h)
        · exact Or.inl h
        · rcases List.mem_cons.mp h with h1 | h1
          · exact Or.inl (h1 ▸ hmem)
          · exact Or.inr h1
    · rw [if_neg hmem]
      constructor
      · rintro (h | h)
        · rcases List.mem_append.mp h with h1 | h1
          · exact Or.inl h1
          · exact Or.inr (List.mem_cons.mpr (Or.inl (List.mem_singleton.mp h1)))
        · exact Or.inr (List.mem_cons_of_mem _ h)
      · rintro (h | h)
        · exact Or.inl (List.mem_append.mpr (Or.inl h))
        · rcases List.mem_cons.mp h with h1 | h1
          · exact Or.inl (List.mem_append.mpr (Or.inr (by simp [h1])))
          · exact Or.inr h1

theorem nodup_foldl_insKey {κ : Type} [DecidableEq κ] (l : List κ) (acc : List κ)
    (hacc : acc.Nodup) : (l.foldl insKey acc).Nodup := by
  induction l generalizing acc with
  | nil => simpa
  | cons hd tl ih =>
    rw [List.foldl_cons]
    apply ih
    unfold insKey
    by_cases hmem : hd ∈ acc
    · rwa [if_pos hmem]
    · rw [if_neg hmem]
      refine List.Nodup.append hacc (List.nodup_singleton hd) ?_
      intro x hx hx2
      rw [List.mem_singleton] at hx2
      exact hmem (hx2 ▸ hx)

theorem filter_eq_singleton_of_nodup {κ : Type} [DecidableEq κ] {l : List κ}
    {k : κ} (hn : l.Nodup) (hm : k ∈ l) :
    l.filter (fun x => decide (x = k)) = [k] := by
  induction l with
  | nil => cases hm
  | cons hd tl ih =>
    rw [List.nodup_cons] at hn
    rcases List.mem_cons.mp hm with h | h
    · subst h
      rw [List.filter_cons_of_pos (by simp)]
      have hnil : tl.filter (fun x => decide (x = k)) = [] := by
        rw [List.filter_eq_nil_iff]
        intro a ha
        simp only [decide_eq_true_eq]
        intro hEq
        exact hn.1 (hEq ▸ ha)
      rw [hnil]
    · rw [List.filter_cons_of_neg ?_]
      · exact ih hn.2 h
      · simp only [decide_eq_true_eq]
        intro hEq
        exact hn.1 (hEq ▸ h)

theorem pvariance_singleton (x : ℚ) : pvariance [x] = 0 := by
  simp [pvariance, pmean]

/-- C9.  Exactly one metric is emitted per non-empty (agent, bias type)
group, and its statistics are as claimed: mean = arithmetic mean of the
group's scores, `std_dev²` = population variance (so 0 for a one-element
group), sample count = group size, and nearest-rank percentiles at index
`max(0, floor(p·(n−1)))` of the ascending-sorted scores. -/
theorem claim_c9_aggregator (run_id : String) (evals : List BiasEvaluation)
    (a : ℕ) (bt : String) (hne : group_scores evals (a, bt) ≠ []) :
    (build_metrics_for_run run_id evals).filter
        (fun m => decide (m.agent_id = a ∧ m.bias_type = bt)) =
      [metric_for_group run_id evals (a, bt)] ∧
    (metric_for_group run_id evals (a, bt)).mean_bias_score =
      (group_scores evals (a, bt)).sum / (group_scores evals (a, bt)).length ∧
    (metric_for_group run_id evals (a, bt)).std_dev_sq =
      pvariance (group_scores evals (a, bt)) ∧
    ((group_scores evals (a, bt)).length = 1 →
      (metric_for_group run_id evals (a, bt)).std_dev_sq = 0) ∧
    (metric_for_group run_id evals (a, bt)).sample_count =
      (group_scores evals (a, bt)).length ∧
    (metric_for_group run_id evals (a, bt)).percentile_25 =
      percentile_claim (group_scores evals (a, bt)) 0.25 ∧
    (metric_for_group run_id evals (a, bt)).percentile_50 =
      percentile_claim (group_scores evals (a, bt)) 0.50 ∧
    (metric_for_group run_id evals (a, bt)).percentile_75 =
      percentile_claim (group_scores evals (a, bt)) 0.75 := by
  have hperm : List.Perm (sortScores (group_scores evals (a, bt)))
      (group_scores evals (a, bt)) := List.perm_insertionSort _ _
  have hlen : (sortScores (group_scores evals (a, bt))).length =
      (group_scores evals (a, bt)).length := hperm.length_eq
  have hsum : (sortScores (group_scores evals (a, bt))).sum =
      (group_scores evals (a, bt)).sum := hperm.sum_eq
  have hmean : pmean (sortScores (group_scores evals (a, bt))) =
      pmean (group_scores evals (a, bt)) := by
    unfold pmean
    rw [hsum, hlen]
  have hvar : pvariance (sortScores (group_scores evals (a, bt))) =
      pvariance (group_scores evals (a, bt)) := by
    unfold pvariance
    rw [hmean, hlen, List.Perm.sum_eq (hperm.map _)]
  have hidx : ∀ p : ℚ, percentile_index p (sortScores (group_scores evals (a, bt))).length =
      (max 0 (Int.floor (p * (((group_scores evals (a, bt)).length : ℚ) - 1)))).toNat := by
    intro p
    rw [hlen]
    unfold percentile_index
    rcases le_total 0 (Int.floor (p * (((group_scores evals (a, bt)).length : ℚ) - 1))) with h | h
    · rw [max_eq_right h]
    · rw [max_eq_left h, Int.toNat_of_nonpos h]
      rfl
  refine ⟨?_, ?_, ?_, ?_, ?_, ?_, ?_, ?_⟩
  · -- exactly one emitted metric for this group
    have hkmem : (a, bt) ∈ (group_pairs evals).map Prod.fst := by
      have hfil : (group_pairs evals).filter (fun p => decide (p.1 = (a, bt))) ≠ [] := by
        intro h
        apply hne
        unfold group_scores
        rw [h]
        rfl
      obtain ⟨x, hx⟩ := List.exists_mem_of_ne_nil _ hfil
      rw [List.mem_filter] at hx
      have hx1 : x.1 = (a, bt) := by simpa using hx.2
      exact hx1 ▸ List.mem_map_of_mem Prod.fst hx.1
    have hkeys_mem : (a, bt) ∈ group_keys evals :=
      (mem_foldl_insKey _ _ _).mpr (Or.inr hkmem)
    have hkeys_nodup : (group_keys evals).Nodup :=
      nodup_foldl_insKey _ _ List.nodup_nil
    unfold build_metrics_for_run
    rw [List.filter_map]
    have hcong : ∀ x ∈ group_keys evals,
        ((fun m => decide (m.agent_id = a ∧ m.bias_type = bt)) ∘
            metric_for_group run_id evals) x = decide (x = (a, bt)) := by
      intro x _
      show decide (x.1 = a ∧ x.2 = bt) = decide (x = (a, bt))
      rw [decide_eq_decide, Prod.ext_iff]
    rw [List.filter_congr hcong,
      filter_eq_singleton_of_nodup hkeys_nodup hkeys_mem]
    rfl
  · show pmean (sortScores (group_scores evals (a, bt))) = _
    rw [hmean]
    rfl
  · show (if 1 < (sortScores (group_scores evals (a, bt))).length then
        pvariance (sortScores (group_scores evals (a, bt))) else 0) = _
    rw [hlen]
    by_cases h1 : 1 < (group_scores evals (a, bt)).length
    · rw [if_pos h1, hvar]
    · rw [if_neg h1]
      have hface : (group_scores evals (a, bt)).length = 1 := by
        have := List.length_pos.mpr hne
        omega
      obtain ⟨x, hx⟩ := List.length_eq_one.mp hface
      rw [hx, pvariance_singleton]
  · intro h1
    show (if 1 < (sortScores (group_scores evals (a, bt))).length then
        pvariance (sortScores (group_scores evals (a, bt))) else 0) = 0
    rw [hlen, if_neg (by omega)]
  · show (sortScores (group_scores evals (a, bt))).length = _
    exact hlen
  · show (sortScores (group_scores evals (a, bt))).getD
        (percentile_index 0.25 (sortScores (group_scores evals (a, bt))).length) 0 = _
    rw [hidx]
    rfl
  · show (sortScores (group_scores evals (a, bt))).getD
        (percentile_index 0.50 (sortScores (group_scores evals (a, bt))).length) 0 = _
    rw [hidx]
    rfl
  · show (sortScores (group_scores evals (a, bt))).getD
        (percentile_index 0.75 (sortScores (group_scores evals (a, bt))).length) 0 = _
    rw [hidx]
    rfl

/-- Witness for C9: on scores {0.2, 0.4, 0.6, 0.8} the single emitted metric
has median 0.4 (nearest-rank, no interpolation), mean 0.5, population
variance 0.05, and sample count 4. -/
theorem claim_c9_witness :
    (build_metrics_for_run "r" c9_evals).filter
        (fun m => decide (m.agent_id = 1 ∧ m.bias_type = "recency")) =
      [metric_for_group "r" c9_evals (1, "recency")] ∧
    (metric_for_group "r" c9_evals (1, "recency")).percentile_50 = 0.4 ∧
    (metric_for_group "r" c9_evals (1, "recency")).percentile_25 = 0.2 ∧
    (metric_for_group "r" c9_evals (1, "recency")).percentile_75 = 0.6 ∧
    (metric_for_group "r" c9_evals (1, "recency")).mean_bias_score = 0.5 ∧
    (metric_for_group "r" c9_evals (1, "recency")).std_dev_sq = 0.05 ∧
    (metric_for_group "r" c9_evals (1, "recency")).sample_count = 4 := by
  refine ⟨(claim_c9_aggregator "r" c9_evals 1 "recency" ?_).1, ?_, ?_, ?_, ?_, ?_, ?_⟩ <;>
    with_unfolding_all decide

/-- C10.  When the requested agent ids or the requested scenario ids resolve
to no database rows, `run_full_benchmark` raises its `ValueError` before any
task is dispatched: the result is the validation error for every gateway
whatsoever (so no provider is consulted), and no evaluation list is
produced. -/
theorem claim_c10_empty_resolution (db_agents : List LLMAgent)
    (db_scenarios : List BiasScenario)
    (run_id : String) (agent_ids scenario_ids : List ℕ) :
    (resolved_agents db_agents agent_ids = [] →
      ∀ gw, run_full_benchmark db_agents db_scenarios gw run_id agent_ids scenario_ids =
        Except.error "No agents matched requested IDs") ∧
    (resolved_agents db_agents agent_ids ≠ [] →
      resolved_scenarios db_scenarios scenario_ids = [] →
      ∀ gw, run_full_benchmark db_agents db_scenarios gw run_id agent_ids scenario_ids =
        Except.error "No scenarios matched requested IDs") := by
  constructor
  · intro hA gw
    unfold run_full_benchmark
    rw [if_pos (List.isEmpty_iff.mpr hA)]
  · intro hA hS gw
    unfold run_full_benchmark
    rw [if_neg (by simpa [List.isEmpty_iff] using hA), if_pos (List.isEmpty_iff.mpr hS)]

/-- Witness for C10: a database whose only scenario id (9) is not among the
requested ids — the run is rejected for any gateway, here one that would
always succeed. -/
theorem claim_c10_witness :
    run_full_benchmark [demo_agent 1] [c9_scn 9] demo_ok_gateway
      "r" [1] [2] = Except.error "No scenarios matched requested IDs" :=
  (claim_c10_empty_resolution _ _ "r" [1] [2]).2
    (by with_unfolding_all decide) (by with_unfolding_all decide) _

theorem extract_action_empty : extract_action "" = "UNKNOWN" := by
  with_unfolding_all decide

theorem extract_confidence_empty : extract_confidence "" = 0.5 := by
  with_unfolding_all decide

/-- Two degraded (empty-response) members always reconcile to a 0 pair
score: both actions are UNKNOWN and both confidences are the 0.5 default. -/
theorem pair_score_empty (e1 e2 : BiasEvaluation) (h1 : e1.model_response = "")
    (h2 : e2.model_response = "") : pair_score e1 e2 = 0 := by
  unfold pair_score
  rw [calculate_anchoring_bias_score_eq, h1, h2]
  unfold anchoring_claim_score
  rw [extract_action_empty, extract_confidence_empty]
  norm_num

theorem chosen_high_mem {evals : List BiasEvaluation} {k : ℕ × String}
    {hp : ℕ × BiasEvaluation} (hh : chosen_high evals k = some hp) :
    hp.2 ∈ evals := by
  have hmem := List.mem_of_getLast?_eq_some hh
  rw [List.mem_filter] at hmem
  exact List.getElem?_mem (mem_pair_members hmem.1).1

theorem chosen_low_mem {evals : List BiasEvaluation} {k : ℕ × String}
    {lp : ℕ × BiasEvaluation} (hl : chosen_low evals k = some lp) :
    lp.2 ∈ evals := by
  have hmem := List.mem_of_getLast?_eq_some hl
  rw [List.mem_filter] at hmem
  exact List.getElem?_mem (mem_pair_members hmem.1).1

/-- If every evaluation of a run has an empty response and a zero provisional
score, reconciliation leaves every score at zero. -/
theorem reconciled_zero_of_all_empty (evals : List BiasEvaluation)
    (hall : ∀ x ∈ evals, x.model_response = "") (i : ℕ) (e : BiasEvaluation)
    (he : e.bias_score = 0) : reconciled_bias_score evals i e = 0 := by
  unfold reconciled_bias_score
  cases hk : anchor_group_key e with
  | none => exact he
  | some k =>
    show (if (pair_members evals k).length < 2 then e.bias_score
      else
        match chosen_high evals k, chosen_low evals k with
        | some hp, some lp =>
          if i = hp.1 ∨ i = lp.1 then pair_score hp.2 lp.2 else e.bias_score
        | _, _ => e.bias_score) = 0
    by_cases hlt : (pair_members evals k).length < 2
    · rw [if_pos hlt]; exact he
    · rw [if_neg hlt]
      cases hh : chosen_high evals k with
      | none => exact he
      | some hp =>
        cases hl : chosen_low evals k with
        | none => exact he
        | some lp =>
          show (if i = hp.1 ∨ i = lp.1 then pair_score hp.2 lp.2 else e.bias_score) = 0
          by_cases hsel : i = hp.1 ∨ i = lp.1
          · rw [if_pos hsel]
            exact pair_score_empty hp.2 lp.2 (hall hp.2 (chosen_high_mem hh))
              (hall lp.2 (chosen_low_mem hl))
          · rw [if_neg hsel]; exact he

/-- C4.  `_safe_evaluate` passes `provider_config=...` as a keyword to
`UnifiedLLMClient.call_model`, whose signature does not bind it, so Python
raises `TypeError` during call binding — before any per-provider branch can
run.  The orchestrator's `except` turns this into the degraded record, for
every agent, scenario and provider dispatch table; consequently every
evaluation a full run produces with this client is degraded (empty response,
UNKNOWN action, zero confidence and score, non-null error) and the success
branch of `_safe_evaluate` is unreachable. -/
theorem claim_c4_provider_config_typeerror :
    call_binds = false ∧
    (∀ dispatch agent scenario,
      safe_evaluate (unified_call_model dispatch) agent scenario =
        { scenario_id := scenario.id, agent_id := agent.id,
          prompt_sent := scenario.base_prompt, model_response := "",
          extracted_action := "UNKNOWN", confidence_score := 0, bias_score := 0,
          response_time_ms := 0, token_usage := [],
          error := some "call_model() got an unexpected keyword argument provider_config" }) ∧
    (∀ dispatch db_agents db_scenarios run_id agent_ids scenario_ids rid evs,
      run_full_benchmark db_agents db_scenarios (unified_call_model dispatch)
          run_id agent_ids scenario_ids = Except.ok (rid, evs) →
      ∀ e ∈ evs, e.model_response = "" ∧ e.extracted_action = "UNKNOWN" ∧
        e.confidence_score = 0 ∧ e.bias_score = 0 ∧
        e.error = some "call_model() got an unexpected keyword argument provider_config") := by
  have hcb : call_binds = false := by decide
  have hdeg : ∀ (dispatch : LLMAgent → BiasScenario → Except String LLMResponse)
      (agent : LLMAgent) (scenario : BiasScenario),
      safe_evaluate (unified_call_model dispatch) agent scenario =
        { scenario_id := scenario.id, agent_id := agent.id,
          prompt_sent := scenario.base_prompt, model_response := "",
          extracted_action := "UNKNOWN", confidence_score := 0, bias_score := 0,
          response_time_ms := 0, token_usage := [],
          error := some "call_model() got an unexpected keyword argument provider_config" } := by
    intro dispatch agent scenario
    unfold safe_evaluate unified_call_model
    rw [hcb]
    rfl
  refine ⟨hcb, hdeg, ?_⟩
  intro dispatch dbA dbS rid0 aids sids rid evs hok
  unfold run_full_benchmark at hok
  by_cases hA : (resolved_agents dbA aids).isEmpty
  · rw [if_pos hA] at hok; cases hok
  · rw [if_neg hA] at hok
    by_cases hS : (resolved_scenarios dbS sids).isEmpty
    · rw [if_pos hS] at hok; cases hok
    · rw [if_neg hS] at hok
      have hpair := Except.ok.inj hok
      have hevs : evs = apply_anchoring_pair_scores (persist_pending dbA dbS rid0
          ((resolved_agents dbA aids).flatMap fun a =>
            (resolved_scenarios dbS sids).map fun s =>
              safe_evaluate (unified_call_model dispatch) a s)) :=
        (congrArg Prod.snd hpair).symm
      have hEdeg : ∀ x ∈ persist_pending dbA dbS rid0
          ((resolved_agents dbA aids).flatMap fun a =>
            (resolved_scenarios dbS sids).map fun s =>
              safe_evaluate (unified_call_model dispatch) a s),
          x.model_response = "" ∧ x.extracted_action = "UNKNOWN" ∧
          x.confidence_score = 0 ∧ x.bias_score = 0 ∧
          x.error = some "call_model() got an unexpected keyword argument provider_config" := by
        intro x hx
        unfold persist_pending at hx
        rw [List.mem_map] at hx
        obtain ⟨item, hitem, rfl⟩ := hx
        rw [List.mem_flatMap] at hitem
        obtain ⟨a, _, hitem2⟩ := hitem
        rw [List.mem_map] at hitem2
        obtain ⟨s, _, rfl⟩ := hitem2
        rw [hdeg dispatch a s]
        exact ⟨rfl, rfl, rfl, rfl, rfl⟩
      subst hevs
      intro e he
      unfold apply_anchoring_pair_scores at he
      rw [List.mem_map] at he
      obtain ⟨p, hp, rfl⟩ := he
      have hp2 : p.2 ∈ persist_pending dbA dbS rid0 _ :=
        List.getElem?_mem (List.mem_enum_iff_getElem?.mp hp)
      obtain ⟨f1, f2, f3, f4, f5⟩ := hEdeg p.2 hp2
      refine ⟨f1, f2, f3, ?_, f5⟩
      exact reconciled_zero_of_all_empty _ (fun x hx => (hEdeg x hx).1) p.1 p.2 f4

theorem pair_index_lt {A S ia is : ℕ} (h1 : ia < A) (h2 : is < S) :
    ia * S + is < A * S := by
  have h3 : ia * S + is < (ia + 1) * S := by
    have h4 : (ia + 1) * S = ia * S + S := by ring
    omega
  exact lt_of_lt_of_le h3 (Nat.mul_le_mul_right S h1)

theorem length_flatMap_const {α β γ : Type} (A : List α) (S : List β)
    (f : α → β → γ) :
    (A.flatMap fun a => S.map (f a)).length = A.length * S.length := by
  induction A with
  | nil => simp
  | cons a A ih =>
    rw [List.flatMap_cons, List.length_append, List.length_map, ih, List.length_cons]
    ring

theorem getElem_flatMap_const {α β γ : Type} (A : List α) (S : List β)
    (f : α → β → γ) (ia is : ℕ) (h1 : ia < A.length) (h2 : is < S.length) :
    (A.flatMap fun a => S.map (f a))[ia * S.length + is]? =
      some (f (A.get ⟨ia, h1⟩) (S.get ⟨is, h2⟩)) := by
  induction A generalizing ia with
  | nil => exact absurd h1 (by simp)
  | cons a A ih =>
    rw [List.flatMap_cons]
    cases ia with
    | zero =>
      simp only [Nat.zero_mul, Nat.zero_add]
      rw [List.getElem?_append_left (by simpa using h2), List.getElem?_map,
        List.getElem?_eq_getElem h2]
      rfl
    | succ n =>
      have harith : (n + 1) * S.length + is = S.length + (n * S.length + is) := by ring
      rw [harith,
        List.getElem?_append_right (by simp)]
      simp only [List.length_map, Nat.add_sub_cancel_left]
      exact ih n (Nat.lt_of_succ_lt_succ h1)

theorem find_scenario_of_nodup {dbS : List BiasScenario}
    (hn : (dbS.map BiasScenario.id).Nodup) {s : BiasScenario} (hs : s ∈ dbS) :
    dbS.find? (fun sc => decide (sc.id = s.id)) = some s := by
  induction dbS with
  | nil => cases hs
  | cons hd tl ih =>
    rw [List.map_cons, List.nodup_cons] at hn
    rcases List.mem_cons.mp hs with rfl | h
    · rw [List.find?_cons_of_pos _ (by simp)]
    · have hne : hd.id ≠ s.id := fun hEq =>
        hn.1 (hEq ▸ List.mem_map_of_mem BiasScenario.id h)
      rw [List.find?_cons_of_neg _ (by simpa using hne)]
      exact ih hn.2 h

theorem anchor_group_key_persist_one (db_agents : List LLMAgent)
    (db_scenarios : List BiasScenario) (rid : String) (item : PendingEvaluation)
    (s : BiasScenario)
    (hfind : db_scenarios.find? (fun sc => decide (sc.id = item.scenario_id)) = some s)
    (aid : ℕ) (haid : item.agent_id = aid) :
    anchor_group_key (persist_one db_agents db_scenarios rid item) =
      scenario_group_key aid s := by
  unfold anchor_group_key
  simp only [persist_one]
  rw [hfind, ← haid]
  rfl

theorem reconciled_persist_one_keynone (evals : List BiasEvaluation) (i : ℕ)
    (db_agents : List LLMAgent) (db_scenarios : List BiasScenario) (rid : String)
    (item : PendingEvaluation) (s : BiasScenario)
    (hfind : db_scenarios.find? (fun sc => decide (sc.id = item.scenario_id)) = some s)
    (hkeynone : scenario_group_key item.agent_id s = none) :
    reconciled_bias_score evals i (persist_one db_agents db_scenarios rid item) =
      item.bias_score := by
  unfold reconciled_bias_score
  rw [anchor_group_key_persist_one db_agents db_scenarios rid item s hfind
    item.agent_id rfl, hkeynone]
  rfl

/-- C1 (amended).  Over non-empty resolved agent and scenario sets the run
always returns `ok` with exactly one evaluation per (agent, scenario) pair,
in agent-major task order; a gateway failure on one pair yields for that pair
a record with empty response, UNKNOWN action, zero confidence and a non-null
error, and a success yields that pair's own extraction results with a null
error — independent of every other pair's outcome.  The returned bias score
of the pair is its own provisional score whenever the pair's scenario does
not belong to an anchoring pair group (for anchoring-group members the
reconciliation pass may overwrite the score, including a degraded member's
placeholder 0.0). -/
theorem claim_c1_run_shape (db_agents : List LLMAgent)
    (db_scenarios : List BiasScenario)
    (gw : LLMAgent → BiasScenario → Except String LLMResponse)
    (run_id : String) (agent_ids scenario_ids : List ℕ)
    (hA : resolved_agents db_agents agent_ids ≠ [])
    (hS : resolved_scenarios db_scenarios scenario_ids ≠ [])
    (hnodup : (db_scenarios.map BiasScenario.id).Nodup) :
    ∃ evs,
      run_full_benchmark db_agents db_scenarios gw run_id agent_ids scenario_ids =
        Except.ok (run_id, evs) ∧
      evs.length = (resolved_agents db_agents agent_ids).length *
        (resolved_scenarios db_scenarios scenario_ids).length ∧
      ∀ ia is (h1 : ia < (resolved_agents db_agents agent_ids).length)
        (h2 : is < (resolved_scenarios db_scenarios scenario_ids).length),
        (∀ msg,
          gw ((resolved_agents db_agents agent_ids).get ⟨ia, h1⟩)
              ((resolved_scenarios db_scenarios scenario_ids).get ⟨is, h2⟩) =
            Except.error msg →
          (evs.getD (ia * (resolved_scenarios db_scenarios scenario_ids).length + is)
              default_evaluation).model_response = "" ∧
          (evs.getD (ia * (resolved_scenarios db_scenarios scenario_ids).length + is)
              default_evaluation).extracted_action = "UNKNOWN" ∧
          (evs.getD (ia * (resolved_scenarios db_scenarios scenario_ids).length + is)
              default_evaluation).confidence_score = 0 ∧
          (evs.getD (ia * (resolved_scenarios db_scenarios scenario_ids).length + is)
              default_evaluation).error = some msg ∧
          (scenario_group_key ((resolved_agents db_agents agent_ids).get ⟨ia, h1⟩).id
              ((resolved_scenarios db_scenarios scenario_ids).get ⟨is, h2⟩) = none →
            (evs.getD (ia * (resolved_scenarios db_scenarios scenario_ids).length + is)
              default_evaluation).bias_score = 0)) ∧
        (∀ resp,
          gw ((resolved_agents db_agents agent_ids).get ⟨ia, h1⟩)
              ((resolved_scenarios db_scenarios scenario_ids).get ⟨is, h2⟩) =
            Except.ok resp →
          (evs.getD (ia * (resolved_scenarios db_scenarios scenario_ids).length + is)
              default_evaluation).model_response = resp.content ∧
          (evs.getD (ia * (resolved_scenarios db_scenarios scenario_ids).length + is)
              default_evaluation).extracted_action = extract_action resp.content ∧
          (evs.getD (ia * (resolved_scenarios db_scenarios scenario_ids).length + is)
              default_evaluation).confidence_score = extract_confidence resp.content ∧
          (evs.getD (ia * (resolved_scenarios db_scenarios scenario_ids).length + is)
              default_evaluation).error = none ∧
          (scenario_group_key ((resolved_agents db_agents agent_ids).get ⟨ia, h1⟩).id
              ((resolved_scenarios db_scenarios scenario_ids).get ⟨is, h2⟩) = none →
            (evs.getD (ia * (resolved_scenarios db_scenarios scenario_ids).length + is)
              default_evaluation).bias_score =
              calculate_bias_for_scenario
                ((resolved_scenarios db_scenarios scenario_ids).get ⟨is, h2⟩)
                resp.content)) := by
  refine ⟨apply_anchoring_pair_scores (persist_pending db_agents db_scenarios run_id
      ((resolved_agents db_agents agent_ids).flatMap fun a =>
        (resolved_scenarios db_scenarios scenario_ids).map fun s =>
          safe_evaluate gw a s)), ?_, ?_, ?_⟩
  · unfold run_full_benchmark
    rw [if_neg (by simpa [List.isEmpty_iff] using hA),
      if_neg (by simpa [List.isEmpty_iff] using hS)]
  · unfold apply_anchoring_pair_scores persist_pending
    rw [List.length_map, List.enum_length, List.length_map, length_flatMap_const]
  · intro ia is h1 h2
    have hElen : (persist_pending db_agents db_scenarios run_id
        ((resolved_agents db_agents agent_ids).flatMap fun a =>
          (resolved_scenarios db_scenarios scenario_ids).map fun s =>
            safe_evaluate gw a s)).length =
        (resolved_agents db_agents agent_ids).length *
          (resolved_scenarios db_scenarios scenario_ids).length := by
      unfold persist_pending
      rw [List.length_map, length_flatMap_const]
    have hidx : ia * (resolved_scenarios db_scenarios scenario_ids).length + is <
        (persist_pending db_agents db_scenarios run_id
          ((resolved_agents db_agents agent_ids).flatMap fun a =>
            (resolved_scenarios db_scenarios scenario_ids).map fun s =>
              safe_evaluate gw a s)).length := by
      rw [hElen]
      exact pair_index_lt h1 h2
    have hEget : (persist_pending db_agents db_scenarios run_id
        ((resolved_agents db_agents agent_ids).flatMap fun a =>
          (resolved_scenarios db_scenarios scenario_ids).map fun s =>
            safe_evaluate gw a s))[ia *
              (resolved_scenarios db_scenarios scenario_ids).length + is]? =
        some (persist_one db_agents db_scenarios run_id
          (safe_evaluate gw ((resolved_agents db_agents agent_ids).get ⟨ia, h1⟩)
            ((resolved_scenarios db_scenarios scenario_ids).get ⟨is, h2⟩))) := by
      unfold persist_pending
      rw [List.getElem?_map, getElem_flatMap_const _ _ _ ia is h1 h2]
      rfl
    have hEi : (persist_pending db_agents db_scenarios run_id
        ((resolved_agents db_agents agent_ids).flatMap fun a =>
          (resolved_scenarios db_scenarios scenario_ids).map fun s =>
            safe_evaluate gw a s)).get
          ⟨ia * (resolved_scenarios db_scenarios scenario_ids).length + is, hidx⟩ =
        persist_one db_agents db_scenarios run_id
          (safe_evaluate gw ((resolved_agents db_agents agent_ids).get ⟨ia, h1⟩)
            ((resolved_scenarios db_scenarios scenario_ids).get ⟨is, h2⟩)) := by
      rw [List.getElem?_eq_getElem hidx] at hEget
      exact Option.some.inj hEget
    have happly := apply_anchoring_getD _ _ hidx
    rw [List.get_eq_getElem] at hEi
    rw [hEi] at happly
    have hsmem : (resolved_scenarios db_scenarios scenario_ids).get ⟨is, h2⟩ ∈
        db_scenarios :=
      List.mem_of_mem_filter (List.get_mem _ _ h2)
    have hfind := find_scenario_of_nodup hnodup hsmem
    constructor
    · intro msg hgw
      have hsafe : safe_evaluate gw ((resolved_agents db_agents agent_ids).get ⟨ia, h1⟩)
          ((resolved_scenarios db_scenarios scenario_ids).get ⟨is, h2⟩) =
          { scenario_id := ((resolved_scenarios db_scenarios scenario_ids).get ⟨is, h2⟩).id,
            agent_id := ((resolved_agents db_agents agent_ids).get ⟨ia, h1⟩).id,
            prompt_sent :=
              ((resolved_scenarios db_scenarios scenario_ids).get ⟨is, h2⟩).base_prompt,
            model_response := "", extracted_action := "UNKNOWN", confidence_score := 0,
            bias_score := 0, response_time_ms := 0, token_usage := [],
            error := some msg } := by
        unfold safe_evaluate
        rw [hgw]
      rw [hsafe] at happly
      rw [happly]
      refine ⟨rfl, rfl, rfl, rfl, ?_⟩
      intro hkeynone
      show reconciled_bias_score _ _ _ = 0
      exact reconciled_persist_one_keynone _ _ db_agents db_scenarios run_id _
        ((resolved_scenarios db_scenarios scenario_ids).get ⟨is, h2⟩) hfind hkeynone
    · intro resp hgw
      have hsafe : safe_evaluate gw ((resolved_agents db_agents agent_ids).get ⟨ia, h1⟩)
          ((resolved_scenarios db_scenarios scenario_ids).get ⟨is, h2⟩) =
          { scenario_id := ((resolved_scenarios db_scenarios scenario_ids).get ⟨is, h2⟩).id,
            agent_id := ((resolved_agents db_agents agent_ids).get ⟨ia, h1⟩).id,
            prompt_sent :=
              ((resolved_scenarios db_scenarios scenario_ids).get ⟨is, h2⟩).base_prompt,
            model_response := resp.content,
            extracted_action := extract_action resp.content,
            confidence_score := extract_confidence resp.content,
            bias_score := calculate_bias_for_scenario
              ((resolved_scenarios db_scenarios scenario_ids).get ⟨is, h2⟩) resp.content,
            response_time_ms := resp.response_time_ms,
            token_usage := resp.tokens_used, error := none } := by
        unfold safe_evaluate
        rw [hgw]
        rfl
      rw [hsafe] at happly
      rw [happly]
      refine ⟨rfl, rfl, rfl, rfl, ?_⟩
      intro hkeynone
      show reconciled_bias_score _ _ _ =
        calculate_bias_for_scenario _ resp.content
      exact reconciled_persist_one_keynone _ _ db_agents db_scenarios run_id _
        ((resolved_scenarios db_scenarios scenario_ids).get ⟨is, h2⟩) hfind hkeynone

/-- Witness for the amended C1: a 1×1 run whose single task fails still
completes with one evaluation, and that evaluation is the degraded record
with provisional score 0 (its scenario is not an anchoring-pair member). -/
theorem claim_c1_witness :
    ∃ evs, run_full_benchmark [demo_agent 1] [c1w_scn] c1w_gw "r" [1] [1] =
        Except.ok ("r", evs) ∧ evs.length = 1 ∧
      (evs.getD 0 default_evaluation).error = some "boom" ∧
      (evs.getD 0 default_evaluation).model_response = "" ∧
      (evs.getD 0 default_evaluation).extracted_action = "UNKNOWN" ∧
      (evs.getD 0 default_evaluation).bias_score = 0 := by
  obtain ⟨evs, hok, hlen, hpt⟩ :=
    claim_c1_run_shape [demo_agent 1] [c1w_scn] c1w_gw "r" [1] [1]
      (by with_unfolding_all decide) (by with_unfolding_all decide) (by decide)
  obtain ⟨herr, _⟩ := hpt 0 0 (by with_unfolding_all decide) (by with_unfolding_all decide)
  have hfacts := herr "boom" rfl
  simp only [Nat.zero_mul, Nat.zero_add] at hfacts
  refine ⟨evs, hok, ?_, hfacts.2.2.2.1, hfacts.1, hfacts.2.1, ?_⟩
  · rw [hlen]
    with_unfolding_all decide
  · exact hfacts.2.2.2.2 (by with_unfolding_all decide)

/-- Counterexample to C1 as stated: in a 1-agent × 2-scenario run where the
gateway fails only on the high-anchor scenario, the returned record for the
failed pair carries a non-null error and an empty response but — because the
anchoring reconciliation pass rescored its pair using the empty response —
its bias score is 29/50, not the claimed 0.0 (and its sibling's score was
computed from the degraded empty response rather than being unaffected). -/
theorem claim_c1_counterexample :
    (c1c_evals.getD 0 default_evaluation).error = some "boom" ∧
    (c1c_evals.getD 0 default_evaluation).model_response = "" ∧
    (c1c_evals.getD 0 default_evaluation).extracted_action = "UNKNOWN" ∧
    (c1c_evals.getD 0 default_evaluation).bias_score = 29/50 ∧
    (c1c_evals.getD 1 default_evaluation).bias_score = 29/50 := by
  refine ⟨?_, ?_, ?_, ?_, ?_⟩ <;> with_unfolding_all decide

/-- Witness for C4: even with a provider dispatch that would succeed, the
run's record is the degraded TypeError form. -/
theorem claim_c4_witness :
    (c4w_evals.getD 0 default_evaluation).model_response = "" ∧
    (c4w_evals.getD 0 default_evaluation).extracted_action = "UNKNOWN" ∧
    (c4w_evals.getD 0 default_evaluation).confidence_score = 0 ∧
    (c4w_evals.getD 0 default_evaluation).bias_score = 0 ∧
    (c4w_evals.getD 0 default_evaluation).error =
      some "call_model() got an unexpected keyword argument provider_config" := by
  have h := claim_c4_provider_config_typeerror.2.2 c4w_dispatch [demo_agent 1]
    [c4w_scn] "r" [1] [1] "r" c4w_evals (by with_unfolding_all rfl)
  exact h (c4w_evals.getD 0 default_evaluation) (by with_unfolding_all decide)
